import Mathlib

/-!
Verification of the configuration resolution and environment-normalization
pipeline of the deploy2 CLI (src/cli.js, second snapshot, lines 214-424).

The embedding translates the pipeline stages into executable Lean functions:
 - the format-loader registry and its filename patterns (the addLoader calls),
 - the config locator (CONFIG_FILES, FALLBACK_CONFIG_FILES, loadConfig),
 - the ecosystem-file unwrapping (isEcosystemConfig, reading the deploy key),
 - the environment normalizer (the ref / repo / post-deploy defaulting block),
 - the deploy invoker console-redirection protocol (save, swap, restore on
   settlement via pFinally).
File-system contents, parsed file data and VCS state are passed in explicitly,
since they are external inputs of the program.
-/

namespace Deploy2

/-! ## Constants from src/cli.js -/

/-- Primary config file names searched in order (src line 233). -/
def CONFIG_FILES : List String := [".deployrc", ".deployrc.js", "deploy.toml"]

/-- Fallback PM2 ecosystem config file names (src line 234). -/
def FALLBACK_CONFIG_FILES : List String :=
  ["ecosystem.config.js", "ecosystem.config.mjs", "ecosystem.json"]

/-- Shell logical AND operator constant (src line 237). -/
def SHELL_OP_AND : String := "&&"

/-- The fixed three-step post-deploy command list (src lines 386-390). -/
def postDeployCommands : List String :=
  ["npm install", "npm run build", "pm2 startOrRestart ecosystem.config.js"]

/-- The default post-deploy command chain: the command list joined with the
shell AND operator surrounded by spaces, as in the source call to join with
separator space SHELL_OP_AND space (src lines 386-391). -/
def postDeployDefault : String :=
  String.intercalate (" " ++ SHELL_OP_AND ++ " ") postDeployCommands

/-! ## Data model

An environment spec is a JS object with the recognized optional string keys
named ref, repo, post-deploy and host; other keys pass through untouched and
are modelled by the `extra` association list. A missing key is `none`. -/

structure EnvironmentSpec where
  ref : Option String
  repo : Option String
  postDeploy : Option String
  host : Option String
  extra : List (String × String)
deriving DecidableEq, Repr

/-- A raw config maps environment names to environment specs; modelled as an
association list of the object entries (JS objects parsed from JSON or TOML
have unique own enumerable string keys). -/
abbrev RawConfig := List (String × EnvironmentSpec)

/-- Data loaded from a config file: its top-level environment entries together
with the value of its deploy key when one is present (ecosystem files nest
the deploy config under that key). -/
structure LoadedData where
  entries : List (String × EnvironmentSpec)
  deploy : Option (List (String × EnvironmentSpec))
deriving DecidableEq

/-- State of the VCS collaborator: the results that the calls git.branch and
git.remoteUrl would return, fixed for the duration of one run. -/
structure VcsState where
  branch : String
  remoteUrl : String
deriving DecidableEq

/-- The two read-only VCS queries the program can perform. -/
inductive VcsQuery where
  | branch
  | remoteUrl
deriving DecidableEq, Repr

/-! ## JS truthiness on optional string fields

The source guards every defaulting step with a JS negation test on the field.
For a field whose value, when present, is a string, the JS test holds exactly
when the field is absent or equal to the empty string. -/

/-- JS truthiness of an optional string field: present and non-empty. -/
def truthy : Option String → Bool
  | none => false
  | some s => !(s == "")

/-- JS falsiness of an optional string field, as a proposition: the field is
absent or is the empty string. -/
def falsy (o : Option String) : Prop := o = none ∨ o = some ""

/-! ## Environment normalizer (src lines 364-391)

The block mutates the selected environment config in place; the embedding
threads the spec explicitly and also records the advisory warnings emitted
(by defaulted field name) and the VCS queries performed, in order. -/

/-- Result of running the normalization block: the updated spec, the advisory
warnings emitted (named by the defaulted field), and the VCS queries made. -/
structure NormResult where
  spec : EnvironmentSpec
  warnings : List String
  queries : List VcsQuery
deriving DecidableEq

/-- The ref / repo / post-deploy defaulting block of the main routine
(src lines 364-391): each field is replaced only when JS-falsy; ref defaults
to the current branch, repo to the current remote URL, post-deploy to the
fixed command chain. Defaulting ref or repo also emits a warning naming
the field and queries the VCS. -/
def normalizeEnv (vcs : VcsState) (env : String) (spec0 : EnvironmentSpec) :
    NormResult :=
  let step1 : NormResult :=
    if truthy spec0.ref then ⟨spec0, [], []⟩
    else ⟨{ spec0 with ref := some vcs.branch }, [env ++ ".ref"], [.branch]⟩
  let s1 := step1.spec
  let step2 : NormResult :=
    if truthy s1.repo then ⟨s1, step1.warnings, step1.queries⟩
    else ⟨{ s1 with repo := some vcs.remoteUrl },
          step1.warnings ++ [env ++ ".repo"], step1.queries ++ [.remoteUrl]⟩
  let s2 := step2.spec
  if truthy s2.postDeploy then ⟨s2, step2.warnings, step2.queries⟩
  else ⟨{ s2 with postDeploy := some postDeployDefault },
        step2.warnings, step2.queries⟩

/-! ## Paths and format loaders -/

/-- Characters of the last path component, accumulated in reverse. -/
def basenameAux : List Char → List Char → List Char
  | [], acc => acc.reverse
  | c :: rest, acc =>
    if c = '/' then basenameAux rest [] else basenameAux rest (c :: acc)

/-- Last component of a slash-separated path; agrees with the Node helper of
the same name on paths that do not end in a slash. -/
def basename (p : String) : String := String.mk (basenameAux p.data [])

/-- Matcher for the tail of a dot-rc filename: a possibly empty run of
non-dot characters followed by the letters r and c at the very end. Together
with `rcTest` this implements the anchored rc-file regex of the first
addLoader call (src line 267). -/
def rcMiddle : List Char → Bool
  | ['r', 'c'] => true
  | c :: rest => decide (c ≠ '.') && rcMiddle rest
  | [] => false

/-- Filename pattern of the dot-rc loader: a leading dot, then no further
dot, ending in the letters r and c (src line 267). -/
def rcTest (name : String) : Bool :=
  match name.data with
  | '.' :: rest => rcMiddle rest
  | _ => false

/-- Suffix test on the character list of a filename. -/
def endsWithChars (suffix : List Char) (name : String) : Bool :=
  List.isSuffixOf suffix name.data

/-- Filename pattern of the TOML loader (src line 271). -/
def tomlTest (name : String) : Bool := endsWithChars ".toml".data name

/-- Filename pattern of the JSON loader (src line 275). -/
def jsonTest (name : String) : Bool := endsWithChars ".json".data name

/-- Filename pattern of the module loader: a dot-js or dot-mjs suffix
(src line 279). -/
def jsTest (name : String) : Bool :=
  endsWithChars ".js".data name || endsWithChars ".mjs".data name

/-- The four registered format loaders. -/
inductive LoaderKind where
  | rc
  | toml
  | json
  | jsModule
deriving DecidableEq, Repr

/-- First loader whose filename pattern matches, in registration order
(src lines 266-281): dot-rc, then TOML, then JSON, then JS module. -/
def findLoader (name : String) : Option LoaderKind :=
  if rcTest name then some .rc
  else if tomlTest name then some .toml
  else if jsonTest name then some .json
  else if jsTest name then some .jsModule
  else none

/-! ## Config locator -/

/-- Candidate config filenames handed to the locator, primary files before
ecosystem fallbacks (src lines 262-265). -/
def joyconFiles : List String := CONFIG_FILES ++ FALLBACK_CONFIG_FILES

/-- Modelled from the spec: the search performed by the external joycon
locator when no explicit path is given, restricted to one directory level.
It returns the first candidate filename, in the order of `joyconFiles`, that
exists on the file system, and nothing when none of them exists. The
file-system is abstracted as an existence predicate on filenames. -/
def locateConfig (fsExists : String → Bool) : Option String :=
  joyconFiles.find? fsExists

/-- Resolution of a user-supplied path against the working directory, as the
path.resolve call does for a single path argument (src line 410): an
absolute path is kept, a relative one is joined to the working directory. -/
def resolvePath (cwd p : String) : String :=
  match p.data with
  | '/' :: _ => p
  | _ => cwd ++ "/" ++ p

/-- The loadConfig function (src lines 408-416). With no explicit path it
defers to the locator; with an explicit path it resolves it, returns the
empty result if the file does not exist, returns the empty result if no
loader pattern matches, and otherwise loads the file. Parsing is abstracted
as a function from paths to loaded data. -/
def loadConfig (cwd : String) (explicitPath : Option String)
    (fsExists : String → Bool) (parseFile : String → LoadedData) :
    Option (String × LoadedData) :=
  match explicitPath with
  | none => (locateConfig fsExists).map (fun f => (f, parseFile f))
  | some p =>
    let filepath := resolvePath cwd p
    if fsExists filepath then
      match findLoader (basename filepath) with
      | some _ => some (filepath, parseFile filepath)
      | none => none
    else none

/-! ## Effective configuration and environment lookup -/

/-- Test for a PM2 ecosystem config file: the basename of the located path is
one of the fallback file names (src line 239). -/
def isEcosystemConfig (configPath : String) : Bool :=
  FALLBACK_CONFIG_FILES.contains (basename configPath)

/-- The effective configuration handed to the rest of the pipeline
(src line 345): the value of the deploy key for an ecosystem file (which may
be absent), the top-level object otherwise. -/
def effectiveConfig (configPath : String) (data : LoadedData) :
    Option RawConfig :=
  if isEcosystemConfig configPath then data.deploy else some data.entries

/-- JS property lookup of an environment name in the configuration object
(src line 354). -/
def lookupEnv (c : RawConfig) (env : String) : Option EnvironmentSpec :=
  match c with
  | [] => none
  | (k, v) :: rest => if env == k then some v else lookupEnv rest env

/-- Keys of the configuration object, as Object.keys would list them. -/
def keysOf (c : RawConfig) : List String := c.map Prod.fst

/-- Resolution of an environment spec from a located file: take the effective
configuration, then look the environment name up in it. -/
def resolveEnvSpec (configPath : String) (data : LoadedData) (env : String) :
    Option EnvironmentSpec :=
  (effectiveConfig configPath data).bind (fun config => lookupEnv config env)

/-! ## The main routine as a pipeline -/

/-- How one run ends, up to the hand-off to the external deploy routine. -/
inductive Outcome where
  | configNotFound
  | malformedConfig
  | envNotFound (env : String) (configFile : String)
  | deploy (config : RawConfig) (env : String) (spec : EnvironmentSpec)
deriving DecidableEq

/-- Exit status determined by the outcome: every error path logs and calls
the process exit with status 1; the deploy outcome hands control to the
external routine, whose settlement decides the final status. -/
def exitCode : Outcome → Option Nat
  | .deploy _ _ _ => none
  | _ => some 1

/-- Observable result of a run: its outcome and the VCS queries performed,
in order. -/
structure RunResult where
  outcome : Outcome
  queries : List VcsQuery
deriving DecidableEq

/-- The main routine from the point the env argument is known
(src lines 335-405): report config-not-found when the locator returned
nothing; unwrap ecosystem data; report a malformed config when the effective
config is absent or has no keys; report env-not-found when the environment
is not defined; otherwise normalize the selected spec and hand it to the
external deploy routine. VCS queries happen only inside normalization. -/
def programRun (env : String) (loadResult : Option (String × LoadedData))
    (vcs : VcsState) : RunResult :=
  match loadResult with
  | none => ⟨.configNotFound, []⟩
  | some (configPath, data) =>
    match effectiveConfig configPath data with
    | none => ⟨.malformedConfig, []⟩
    | some config =>
      if config.isEmpty then ⟨.malformedConfig, []⟩
      else
        match lookupEnv config env with
        | none => ⟨.envNotFound env (basename configPath), []⟩
        | some envConfig =>
          let r := normalizeEnv vcs env envConfig
          ⟨.deploy config env r.spec, r.queries⟩

/-! ## Console redirection in the deploy invoker (src lines 393-405)

The invoker reads the property named log from the current value of the
console log field, which at that point is the standard console log function,
installs a filtering proxy in its place, and after the deploy promise
settles assigns the saved value back. The JS value model below captures just
enough of property access to settle what the saved value is: an ordinary
function object such as the console log function carries no own data
property named log, and none is inherited along its prototype chain, so
reading that property off a function value yields the undefined value. -/

/-- An ordinary JS function object, identified by an id. -/
structure JsFunction where
  fid : Nat
deriving DecidableEq, Repr

/-- Property access on an ordinary function object: the functions involved
here (the standard console log function and the filtering proxy) have no own
data property under the keys the program reads and inherit none, so every
such read yields the undefined value. -/
def jsFunctionGetProp (_f : JsFunction) (_name : String) : Option Unit := none

/-- The JS values the console protocol manipulates. -/
inductive JsVal where
  | undefined
  | func (f : JsFunction)
deriving DecidableEq, Repr

/-- JS property read on a value of the model. Reading off the undefined
value throws in JS; it is never reached in the modelled run. -/
def getProp (v : JsVal) (name : String) : JsVal :=
  match v with
  | .undefined => .undefined
  | .func f =>
    match jsFunctionGetProp f name with
    | some _ => .undefined
    | none => .undefined

/-- Mutable console state: the current value of its log field. -/
structure ConsoleState where
  log : JsVal
deriving DecidableEq, Repr

/-- The standard console log function installed before the run. -/
def nodeConsoleLog : JsVal := .func ⟨0⟩

/-- The filtering proxy the invoker installs for the duration of the call. -/
def proxyLogFn : JsVal := .func ⟨1⟩

/-- The two ways the external deploy promise can settle. -/
inductive Settled where
  | fulfilled
  | rejected
deriving DecidableEq, Repr

/-- The console protocol of the deploy invoker (src lines 393-405): the saved
value is the property named log read from the CURRENT VALUE of the console
log field (the destructuring on src line 394 reads that property off the
function stored there, not off the console object); the proxy is installed
for the duration of the call; on settlement, fulfilled or rejected alike,
the pFinally callback assigns the saved value back. Returns the console
state during the call and the console state after settlement. -/
def deployInvokerConsole (c0 : ConsoleState) (outcome : Settled) :
    ConsoleState × ConsoleState :=
  let saved := getProp c0.log "log"
  let during : ConsoleState := { log := proxyLogFn }
  let after : ConsoleState :=
    match outcome with
    | .fulfilled => { during with log := saved }
    | .rejected => { during with log := saved }
  (during, after)

/-! ## Sample data used by concrete witnesses -/

/-- A complete environment spec used in concrete instances. -/
def sampleSpec : EnvironmentSpec :=
  ⟨some "main", some "git@example.com:a/b.git", some "npm ci", some "example.com", []⟩

/-- A second, distinct spec bound at top level in the ecosystem sample. -/
def topLevelSpec : EnvironmentSpec :=
  ⟨some "trunk", some "git@example.com:c/d.git", some "make", some "other.example.com", []⟩

/-- Sample loaded data of an ecosystem file: the staging environment appears
both at top level and under the deploy key, with different values. -/
def ecosystemSampleData : LoadedData :=
  ⟨[("staging", topLevelSpec)], some [("staging", sampleSpec)]⟩

/-- A fixed VCS state for concrete instances. -/
def sampleVcs : VcsState := ⟨"develop", "git@example.com:s/t.git"⟩

/-! ## Helper lemmas -/

theorem truthy_eq_false_iff_falsy (o : Option String) :
    truthy o = false ↔ falsy o := by
  cases o with
  | none => simp [truthy, falsy]
  | some s => simp [truthy, falsy]

theorem truthy_eq_true_iff (o : Option String) :
    truthy o = true ↔ ∃ s, o = some s ∧ s ≠ "" := by
  cases o with
  | none => simp [truthy]
  | some s => simp [truthy]

theorem normalizeEnv_ref (vcs : VcsState) (env : String)
    (spec0 : EnvironmentSpec) :
    (normalizeEnv vcs env spec0).spec.ref =
      if truthy spec0.ref then spec0.ref else some vcs.branch := by
  cases h1 : truthy spec0.ref <;>
    cases h2 : truthy spec0.repo <;>
      simp [normalizeEnv, h1, h2] <;> split <;> simp

theorem normalizeEnv_repo (vcs : VcsState) (env : String)
    (spec0 : EnvironmentSpec) :
    (normalizeEnv vcs env spec0).spec.repo =
      if truthy spec0.repo then spec0.repo else some vcs.remoteUrl := by
  cases h1 : truthy spec0.ref <;>
    cases h2 : truthy spec0.repo <;>
      simp [normalizeEnv, h1, h2] <;> split <;> simp

theorem normalizeEnv_postDeploy (vcs : VcsState) (env : String)
    (spec0 : EnvironmentSpec) :
    (normalizeEnv vcs env spec0).spec.postDeploy =
      if truthy spec0.postDeploy then spec0.postDeploy
      else some postDeployDefault := by
  cases h1 : truthy spec0.ref <;>
    cases h2 : truthy spec0.repo <;>
      cases h3 : truthy spec0.postDeploy <;>
        simp [normalizeEnv, h1, h2, h3]

theorem normalizeEnv_host (vcs : VcsState) (env : String)
    (spec0 : EnvironmentSpec) :
    (normalizeEnv vcs env spec0).spec.host = spec0.host := by
  cases h1 : truthy spec0.ref <;>
    cases h2 : truthy spec0.repo <;>
      cases h3 : truthy spec0.postDeploy <;>
        simp [normalizeEnv, h1, h2, h3]

theorem normalizeEnv_extra (vcs : VcsState) (env : String)
    (spec0 : EnvironmentSpec) :
    (normalizeEnv vcs env spec0).spec.extra = spec0.extra := by
  cases h1 : truthy spec0.ref <;>
    cases h2 : truthy spec0.repo <;>
      cases h3 : truthy spec0.postDeploy <;>
        simp [normalizeEnv, h1, h2, h3]

theorem normalizeEnv_warnings (vcs : VcsState) (env : String)
    (spec0 : EnvironmentSpec) :
    (normalizeEnv vcs env spec0).warnings =
      (if truthy spec0.ref then [] else [env ++ ".ref"]) ++
      (if truthy spec0.repo then [] else [env ++ ".repo"]) := by
  cases h1 : truthy spec0.ref <;>
    cases h2 : truthy spec0.repo <;>
      cases h3 : truthy spec0.postDeploy <;>
        simp [normalizeEnv, h1, h2, h3]

theorem normalizeEnv_queries (vcs : VcsState) (env : String)
    (spec0 : EnvironmentSpec) :
    (normalizeEnv vcs env spec0).queries =
      (if truthy spec0.ref then [] else [VcsQuery.branch]) ++
      (if truthy spec0.repo then [] else [VcsQuery.remoteUrl]) := by
  cases h1 : truthy spec0.ref <;>
    cases h2 : truthy spec0.repo <;>
      cases h3 : truthy spec0.postDeploy <;>
        simp [normalizeEnv, h1, h2, h3]

theorem postDeployDefault_eq :
    postDeployDefault =
      "npm install && npm run build && pm2 startOrRestart ecosystem.config.js" := by
  decide

theorem lookupEnv_eq_none_iff (c : RawConfig) (env : String) :
    lookupEnv c env = none ↔ env ∉ keysOf c := by
  induction c with
  | nil => simp [lookupEnv, keysOf]
  | cons kv rest ih =>
    obtain ⟨k, v⟩ := kv
    by_cases h : env = k
    · subst h; simp [lookupEnv, keysOf]
    · simp [lookupEnv, keysOf, h, ih]

theorem lookupEnv_some_mem (c : RawConfig) (env : String)
    (spec0 : EnvironmentSpec) (h : lookupEnv c env = some spec0) :
    env ∈ keysOf c := by
  by_contra hmem
  have hnone := (lookupEnv_eq_none_iff c env).mpr hmem
  rw [h] at hnone
  exact Option.noConfusion hnone

theorem isEcosystemConfig_iff (p : String) :
    isEcosystemConfig p = true ↔ basename p ∈ FALLBACK_CONFIG_FILES := by
  simp only [isEcosystemConfig]
  exact List.elem_iff

/-! ## Claims -/

/-- C4: for every raw config value and environment name on which
normalization runs, the resulting spec handed to the external deploy routine
has non-empty ref, repo and post-deploy fields, under the hypothesis that the
VCS queries return non-empty strings. -/
theorem c4_normalized_fields_nonempty (vcs : VcsState) (env : String)
    (spec0 : EnvironmentSpec)
    (hb : vcs.branch ≠ "") (hr : vcs.remoteUrl ≠ "") :
    truthy (normalizeEnv vcs env spec0).spec.ref = true ∧
    truthy (normalizeEnv vcs env spec0).spec.repo = true ∧
    truthy (normalizeEnv vcs env spec0).spec.postDeploy = true := by
  refine ⟨?_, ?_, ?_⟩
  · rw [normalizeEnv_ref]
    by_cases h : truthy spec0.ref = true
    · rw [if_pos h]; exact h
    · rw [if_neg h]; simp [truthy, hb]
  · rw [normalizeEnv_repo]
    by_cases h : truthy spec0.repo = true
    · rw [if_pos h]; exact h
    · rw [if_neg h]; simp [truthy, hr]
  · rw [normalizeEnv_postDeploy]
    by_cases h : truthy spec0.postDeploy = true
    · rw [if_pos h]; exact h
    · rw [if_neg h]; decide

/-- Witness for C4 at a concrete input: an empty spec, normalized under a
non-empty VCS state. -/
theorem c4_normalized_fields_nonempty_witness :
    sampleVcs.branch ≠ "" ∧ sampleVcs.remoteUrl ≠ "" ∧
    (truthy (normalizeEnv sampleVcs "staging" ⟨none, none, none, none, []⟩).spec.ref = true ∧
     truthy (normalizeEnv sampleVcs "staging" ⟨none, none, none, none, []⟩).spec.repo = true ∧
     truthy (normalizeEnv sampleVcs "staging" ⟨none, none, none, none, []⟩).spec.postDeploy = true) :=
  ⟨by decide, by decide,
   c4_normalized_fields_nonempty sampleVcs "staging" ⟨none, none, none, none, []⟩
     (by decide) (by decide)⟩

/-- C5: normalization is idempotent under a fixed VCS state; on a spec whose
ref, repo and post-deploy are all present (as the code tests presence:
non-empty), it returns the spec unchanged, emits no advisory warning and
performs no VCS query. -/
theorem c5_normalize_idempotent_on_complete (vcs : VcsState) (env : String)
    (spec0 : EnvironmentSpec)
    (h1 : truthy spec0.ref = true) (h2 : truthy spec0.repo = true)
    (h3 : truthy spec0.postDeploy = true) :
    normalizeEnv vcs env spec0 = ⟨spec0, [], []⟩ := by
  simp [normalizeEnv, h1, h2, h3]

/-- Witness for C5 at a concrete input: a complete spec is returned
unchanged with no warnings. -/
theorem c5_normalize_idempotent_on_complete_witness :
    truthy sampleSpec.ref = true ∧ truthy sampleSpec.repo = true ∧
    truthy sampleSpec.postDeploy = true ∧
    normalizeEnv sampleVcs "staging" sampleSpec = ⟨sampleSpec, [], []⟩ :=
  ⟨by decide, by decide, by decide,
   c5_normalize_idempotent_on_complete sampleVcs "staging" sampleSpec
     (by decide) (by decide) (by decide)⟩

/-- C8: every spec lacking a post-deploy command is assigned exactly the
fixed three-step chain, the three commands joined by the shell logical AND
operator. -/
theorem c8_post_deploy_default_chain (vcs : VcsState) (env : String)
    (spec0 : EnvironmentSpec) (h : truthy spec0.postDeploy = false) :
    (normalizeEnv vcs env spec0).spec.postDeploy =
      some "npm install && npm run build && pm2 startOrRestart ecosystem.config.js" := by
  rw [normalizeEnv_postDeploy, h]
  simp [postDeployDefault_eq]

/-- Witness for C8 at a concrete input: a spec with no post-deploy field. -/
theorem c8_post_deploy_default_chain_witness :
    truthy (EnvironmentSpec.mk (some "main") (some "git@example.com:a/b.git")
      none none []).postDeploy = false ∧
    (normalizeEnv sampleVcs "staging"
      ⟨some "main", some "git@example.com:a/b.git", none, none, []⟩).spec.postDeploy =
      some "npm install && npm run build && pm2 startOrRestart ecosystem.config.js" :=
  ⟨by decide,
   c8_post_deploy_default_chain sampleVcs "staging"
     ⟨some "main", some "git@example.com:a/b.git", none, none, []⟩ (by decide)⟩

/-- C10: normalization treats an empty-string field as absent; a field that
is present but empty, or absent, is overwritten with its default: the current
branch for ref, the current remote URL for repo, the canned chain for
post-deploy. -/
theorem c10_falsy_fields_overwritten (vcs : VcsState) (env : String)
    (spec0 : EnvironmentSpec) :
    (falsy spec0.ref → (normalizeEnv vcs env spec0).spec.ref = some vcs.branch) ∧
    (falsy spec0.repo →
      (normalizeEnv vcs env spec0).spec.repo = some vcs.remoteUrl) ∧
    (falsy spec0.postDeploy →
      (normalizeEnv vcs env spec0).spec.postDeploy = some postDeployDefault) := by
  refine ⟨fun hf => ?_, fun hf => ?_, fun hf => ?_⟩
  · rw [normalizeEnv_ref, (truthy_eq_false_iff_falsy _).mpr hf]
    simp
  · rw [normalizeEnv_repo, (truthy_eq_false_iff_falsy _).mpr hf]
    simp
  · rw [normalizeEnv_postDeploy, (truthy_eq_false_iff_falsy _).mpr hf]
    simp

/-- Witness for C10 at a concrete input: a spec whose three fields are all
present but equal to the empty string is fully overwritten. -/
theorem c10_falsy_fields_overwritten_witness :
    (normalizeEnv sampleVcs "staging"
      ⟨some "", some "", some "", none, []⟩).spec.ref = some sampleVcs.branch ∧
    (normalizeEnv sampleVcs "staging"
      ⟨some "", some "", some "", none, []⟩).spec.repo = some sampleVcs.remoteUrl ∧
    (normalizeEnv sampleVcs "staging"
      ⟨some "", some "", some "", none, []⟩).spec.postDeploy = some postDeployDefault :=
  ⟨(c10_falsy_fields_overwritten sampleVcs "staging" _).1 (Or.inr rfl),
   (c10_falsy_fields_overwritten sampleVcs "staging" _).2.1 (Or.inr rfl),
   (c10_falsy_fields_overwritten sampleVcs "staging" _).2.2 (Or.inr rfl)⟩

/-- C2: with no explicit path, the locator selects the first existing file in
the strict precedence order given by the candidate list, the three primary
names before the three ecosystem fallbacks; in particular a directory holding
both the dot-deployrc file and the deploy dot-toml file selects the former. -/
theorem c2_locator_strict_precedence :
    (∀ fsExists : String → Bool,
      locateConfig fsExists =
        if fsExists ".deployrc" then some ".deployrc"
        else if fsExists ".deployrc.js" then some ".deployrc.js"
        else if fsExists "deploy.toml" then some "deploy.toml"
        else if fsExists "ecosystem.config.js" then some "ecosystem.config.js"
        else if fsExists "ecosystem.config.mjs" then some "ecosystem.config.mjs"
        else if fsExists "ecosystem.json" then some "ecosystem.json"
        else none) ∧
    locateConfig (fun f => f == ".deployrc" || f == "deploy.toml") =
      some ".deployrc" := by
  constructor
  · intro fsExists
    cases h1 : fsExists ".deployrc" <;>
      cases h2 : fsExists ".deployrc.js" <;>
        cases h3 : fsExists "deploy.toml" <;>
          cases h4 : fsExists "ecosystem.config.js" <;>
            cases h5 : fsExists "ecosystem.config.mjs" <;>
              cases h6 : fsExists "ecosystem.json" <;>
                simp [locateConfig, joyconFiles, CONFIG_FILES,
                  FALLBACK_CONFIG_FILES, List.find?, h1, h2, h3, h4, h5, h6]
  · decide

/-- C3: the effective configuration is the nested deploy value exactly when
the located file is one of the fallback ecosystem files, and the top-level
object otherwise; concretely, for an ecosystem dot-json file whose staging
environment differs between top level and the nested deploy key, resolution
yields the nested binding, while a dot-deployrc path yields the top-level
binding. -/
theorem c3_ecosystem_unwraps_deploy_key :
    (∀ (configPath : String) (data : LoadedData) (env : String),
      effectiveConfig configPath data =
        (if basename configPath ∈ FALLBACK_CONFIG_FILES then data.deploy
         else some data.entries) ∧
      resolveEnvSpec configPath data env =
        (if basename configPath ∈ FALLBACK_CONFIG_FILES then
           data.deploy.bind (fun config => lookupEnv config env)
         else lookupEnv data.entries env)) ∧
    resolveEnvSpec "/app/ecosystem.json" ecosystemSampleData "staging" =
      some sampleSpec ∧
    lookupEnv ecosystemSampleData.entries "staging" = some topLevelSpec ∧
    sampleSpec ≠ topLevelSpec ∧
    resolveEnvSpec "/app/.deployrc" ecosystemSampleData "staging" =
      some topLevelSpec := by
  refine ⟨?_, by decide, by decide, by decide, by decide⟩
  intro configPath data env
  by_cases hm : basename configPath ∈ FALLBACK_CONFIG_FILES
  · cases he : isEcosystemConfig configPath
    · have := (isEcosystemConfig_iff configPath).mpr hm
      rw [he] at this
      exact Bool.noConfusion this
    · simp [effectiveConfig, resolveEnvSpec, he, hm]
  · cases he : isEcosystemConfig configPath
    · simp [effectiveConfig, resolveEnvSpec, he, hm]
    · exact absurd ((isEcosystemConfig_iff configPath).mp he) hm

/-- C9: when the locator finds no configuration file anywhere on the search
path, the run ends with the config-not-found report and exit status 1, and
no VCS query is performed in that run. -/
theorem c9_no_config_no_vcs (env cwd : String) (fsExists : String → Bool)
    (parseFile : String → LoadedData) (vcs : VcsState)
    (h : locateConfig fsExists = none) :
    programRun env (loadConfig cwd none fsExists parseFile) vcs =
      ⟨Outcome.configNotFound, []⟩ ∧
    exitCode Outcome.configNotFound = some 1 := by
  refine ⟨?_, rfl⟩
  simp [loadConfig, h, programRun]

/-- Witness for C9 at a concrete input: an empty file system. -/
theorem c9_no_config_no_vcs_witness :
    locateConfig (fun _ => false) = none ∧
    (programRun "staging"
        (loadConfig "/proj" none (fun _ => false) (fun _ => ⟨[], none⟩))
        sampleVcs =
      ⟨Outcome.configNotFound, []⟩ ∧
     exitCode Outcome.configNotFound = some 1) :=
  ⟨by decide,
   c9_no_config_no_vcs "staging" "/proj" (fun _ => false) (fun _ => ⟨[], none⟩)
     sampleVcs (by decide)⟩

/-- C6 as amended: with an explicit path, loading succeeds exactly when the
resolved path exists and some loader pattern matches it; when the path does
not exist, and equally when it exists but no loader matches, loadConfig
returns the same empty result and the run ends with the config-not-found
report; the two failure modes are not distinguished. -/
theorem c6_explicit_path_failures_collapse (cwd p : String)
    (fsExists : String → Bool) (parseFile : String → LoadedData)
    (env : String) (vcs : VcsState) :
    loadConfig cwd (some p) fsExists parseFile =
      (if fsExists (resolvePath cwd p) = true ∧
          (findLoader (basename (resolvePath cwd p))).isSome = true then
         some (resolvePath cwd p, parseFile (resolvePath cwd p))
       else none) ∧
    programRun env (loadConfig cwd (some p) fsExists parseFile) vcs =
      (if fsExists (resolvePath cwd p) = true ∧
          (findLoader (basename (resolvePath cwd p))).isSome = true then
         programRun env
           (some (resolvePath cwd p, parseFile (resolvePath cwd p))) vcs
       else ⟨Outcome.configNotFound, []⟩) := by
  cases hfs : fsExists (resolvePath cwd p)
  · simp [loadConfig, hfs, programRun]
  · cases hl : findLoader (basename (resolvePath cwd p))
    · simp [loadConfig, hfs, hl, programRun]
    · simp [loadConfig, hfs, hl]

/-- Counterexample to C6 as stated: an explicit path that exists but matches
no loader pattern produces literally the same result as a path that does not
exist, and the run reports config-not-found in both cases; there is no
distinct unsupported-format error kind. -/
theorem c6_counterexample_no_distinct_error :
    loadConfig "/proj" (some "config.yaml") (fun _ => false)
        (fun _ => ⟨[], none⟩) =
      loadConfig "/proj" (some "config.yaml")
        (fun q => q == "/proj/config.yaml") (fun _ => ⟨[], none⟩) ∧
    loadConfig "/proj" (some "config.yaml")
        (fun q => q == "/proj/config.yaml") (fun _ => ⟨[], none⟩) = none ∧
    programRun "staging"
        (loadConfig "/proj" (some "config.yaml")
          (fun q => q == "/proj/config.yaml") (fun _ => ⟨[], none⟩))
        sampleVcs =
      ⟨Outcome.configNotFound, []⟩ := by
  decide

/-- C7: given a located file with a non-empty effective configuration, the
run reports the environment-not-found error, which exits with status 1, if
and only if the environment name is not a key of that configuration; when
the key is present, the run proceeds to deploy with the normalization of its
value. -/
theorem c7_env_not_found_iff_key_absent (env configPath : String)
    (data : LoadedData) (config : RawConfig) (vcs : VcsState)
    (hcfg : effectiveConfig configPath data = some config)
    (hne : config.isEmpty = false) :
    ((programRun env (some (configPath, data)) vcs).outcome =
        Outcome.envNotFound env (basename configPath) ↔
      env ∉ keysOf config) ∧
    exitCode (Outcome.envNotFound env (basename configPath)) = some 1 ∧
    (∀ spec0, lookupEnv config env = some spec0 →
      (programRun env (some (configPath, data)) vcs).outcome =
        Outcome.deploy config env (normalizeEnv vcs env spec0).spec) := by
  refine ⟨?_, rfl, ?_⟩
  · cases hl : lookupEnv config env
    · simp [programRun, hcfg, hne, hl]
      exact (lookupEnv_eq_none_iff config env).mp hl
    · simp [programRun, hcfg, hne, hl]
      exact lookupEnv_some_mem config env _ hl
  · intro spec0 hl
    simp [programRun, hcfg, hne, hl]

/-- Witness for C7 at a concrete input: a config defining only staging,
queried for production. -/
theorem c7_env_not_found_iff_key_absent_witness :
    effectiveConfig "/proj/.deployrc" ⟨[("staging", sampleSpec)], none⟩ =
      some [("staging", sampleSpec)] ∧
    ([("staging", sampleSpec)] : RawConfig).isEmpty = false ∧
    ((programRun "production"
        (some ("/proj/.deployrc", ⟨[("staging", sampleSpec)], none⟩))
        sampleVcs).outcome =
      Outcome.envNotFound "production" (basename "/proj/.deployrc") ↔
      "production" ∉ keysOf [("staging", sampleSpec)]) ∧
    exitCode (Outcome.envNotFound "production" (basename "/proj/.deployrc")) =
      some 1 := by
  have h := c7_env_not_found_iff_key_absent "production" "/proj/.deployrc"
    ⟨[("staging", sampleSpec)], none⟩ [("staging", sampleSpec)] sampleVcs
    (by decide) (by decide)
  exact ⟨by decide, by decide, h.1, h.2.1⟩

/-- C1 refuted by the code (code bug): the cleanup callback does run on both
settlement paths and removes the filtering proxy, but it restores the
console log field to the undefined value, not to the function it held before
the call: the source destructures the property named log from the function
stored in the console log field, instead of from the console object, so the
saved value is undefined. -/
theorem c1_console_log_restored_to_undefined :
    (deployInvokerConsole ⟨nodeConsoleLog⟩ Settled.fulfilled).2.log =
      JsVal.undefined ∧
    (deployInvokerConsole ⟨nodeConsoleLog⟩ Settled.rejected).2.log =
      JsVal.undefined ∧
    (deployInvokerConsole ⟨nodeConsoleLog⟩ Settled.fulfilled).1.log =
      proxyLogFn ∧
    JsVal.undefined ≠ nodeConsoleLog ∧
    JsVal.undefined ≠ proxyLogFn := by
  decide

end Deploy2
